import Mathlib

/-!
A verification development for the rfx entity-naming library.

The development shallowly embeds the parts of the Go sources that the
checked properties are about:

* `Config` and the type-normalization algorithm `Normalize`
  (package `utils/reflect`, function `Normalize`);
* the registry (`registry/registry.go`: `Register`, `Lookup`);
* the reflective-fallback strategy with its memoization cache
  (`strategy/reflect.go`: `cacheKey`, `byType`, `TryResolve`,
  `TryResolveType`);
* the global snapshot state machine (`config.go` of package `rfx`:
  `SetConfig`, `SetAll`, `SetRegistry`, `SetResolver`, `SetBuilder`,
  `SetExt`, `PinRegistry`/`UnpinRegistry`, `PinResolver`/`UnpinResolver`).

Go machine integers are modelled as `Int` (with explicit truncation where
the source converts, e.g. `int16(cfg.MaxUnwrap)`), nil-able interface
values as `Option`, panics as `Except.error`, and the process-global
atomically published snapshot as explicit state passing.
-/

/-- `apis.Config`: the read-only resolution knobs (`apis/config.go`). -/
structure Config where
  includeBuiltins : Bool
  maxUnwrap : Int
  mapPreferElem : Bool
deriving DecidableEq

/-- `config.DefaultConfig()`: IncludeBuiltins=true, MaxUnwrap=8,
MapPreferElem=true. -/
def defaultConfig : Config := ⟨true, 8, true⟩

/-- A model of Go `reflect.Type` restricted to the observers the sources
use: `Kind()` (the constructor), `Name()`, `PkgPath()`, `Elem()`, `Key()`.
Named container types (e.g. `type MySlice []int`) carry their own name in
the constructor, as in Go.  Array lengths are irrelevant to every modelled
observer and are omitted. -/
inductive GoType : Type where
  | base (pkg nm : String)
  | ptr (pkg nm : String) (elem : GoType)
  | slice (pkg nm : String) (elem : GoType)
  | array (pkg nm : String) (elem : GoType)
  | chan (pkg nm : String) (elem : GoType)
  | mapT (pkg nm : String) (key elem : GoType)
deriving DecidableEq

/-- Go `reflect.Type.Name()`. -/
def GoType.name : GoType → String
  | .base _ n => n
  | .ptr _ n _ => n
  | .slice _ n _ => n
  | .array _ n _ => n
  | .chan _ n _ => n
  | .mapT _ n _ _ => n

/-- Go `reflect.Type.PkgPath()`. -/
def GoType.pkgPath : GoType → String
  | .base p _ => p
  | .ptr p _ _ => p
  | .slice p _ _ => p
  | .array p _ _ => p
  | .chan p _ _ => p
  | .mapT p _ _ _ => p

/-- The two errors of `utils/reflect` (`ErrReflectNilType`,
`ErrReflectTypeNotNamed`). -/
inductive NormErr where
  | nilType
  | notNamed
deriving DecidableEq

/-- The `for i := 0; t != nil && i < maxUnwrap; i++` loop body of
`Normalize` (part_004, lines 371-409), with the remaining iteration budget
as fuel.  The `fuel = 0` case is the post-loop re-check (lines 411-415):
return `t` if it is named, otherwise `ErrReflectTypeNotNamed`.  In the map
case the source's `et != nil` / `kt != nil` guards are always true
(`Elem`/`Key` of a map type are never nil), so they are dropped. -/
def unwrapLoop (t : GoType) (preferElem : Bool) : Nat → Except NormErr GoType
  | 0 => if t.name ≠ "" then .ok t else .error .notNamed
  | fuel + 1 =>
    match t with
    | .ptr _ _ e => unwrapLoop e preferElem fuel
    | .slice _ _ e => unwrapLoop e preferElem fuel
    | .array _ _ e => unwrapLoop e preferElem fuel
    | .chan _ _ e => unwrapLoop e preferElem fuel
    | .mapT _ _ k e =>
      if preferElem then
        if e.name ≠ "" then .ok e
        else if k.name ≠ "" then .ok k
        else unwrapLoop e preferElem fuel
      else
        if k.name ≠ "" then .ok k
        else if e.name ≠ "" then .ok e
        else unwrapLoop e preferElem fuel
    | .base p n => if n ≠ "" then .ok (.base p n) else .error .notNamed

/-- The clamp at the top of `Normalize`: `if maxUnwrap <= 0 { maxUnwrap =
config.DefaultMaxUnwrap }` with `DefaultMaxUnwrap = 8`. -/
def clampUnwrap (m : Int) : Nat := if m ≤ 0 then 8 else m.toNat

/-- `uref.Normalize(t, cfg)` (part_004, lines 360-416).  A nil descriptor
is `none` and fails with `ErrReflectNilType`. -/
def Normalize (t : Option GoType) (cfg : Config) : Except NormErr GoType :=
  match t with
  | none => .error .nilType
  | some t => unwrapLoop t cfg.mapPreferElem (clampUnwrap cfg.maxUnwrap)

/-- One layer of pointer/slice/array/channel wrapping (the Go type
constructors `*T`, `[]T`, `[n]T`, `chan T`, all of which are unnamed
composite types: `Name() == ""`, `PkgPath() == ""`). -/
inductive Wrap where
  | wptr
  | wslice
  | warray
  | wchan
deriving DecidableEq

/-- Apply one wrapping constructor around a type. -/
def applyWrap : Wrap → GoType → GoType
  | .wptr, t => .ptr "" "" t
  | .wslice, t => .slice "" "" t
  | .warray, t => .array "" "" t
  | .wchan, t => .chan "" "" t

/-- Wrap `t` under the given constructors, outermost first. -/
def wrapAll (ws : List Wrap) (t : GoType) : GoType :=
  ws.foldr applyWrap t

/-- The errors of `registry/registry.go`: its own `ErrNilType` and
`ErrEmptyName`, `ErrConflictingRegistration`, plus the normalization
errors it propagates unchanged (line 74). -/
inductive RegErr where
  | nilTypeReg
  | emptyName
  | conflict
  | norm (e : NormErr)
deriving DecidableEq

/-- The registry state (`registry.registry`): the normalization config,
the `sync.Map` of normalized type to name (modelled as an association
list), and the entry counter.  All registry operations are serialized in
this model, which collapses the source's check-lock-recheck pattern into
one check. -/
structure RegistryS where
  cfg : Config
  entries : List (GoType × String)
  count : Nat
deriving DecidableEq

/-- `sync.Map.Load` on the registry map. -/
def lookupEntry (es : List (GoType × String)) (t : GoType) : Option String :=
  (es.find? (fun e => e.1 == t)).map (fun e => e.2)

/-- `registry.New(cfg)`: clamps `MaxUnwrap <= 0` to the default 8 and
starts empty. -/
def newRegistry (cfg : Config) : RegistryS :=
  { cfg := if cfg.maxUnwrap ≤ 0 then { cfg with maxUnwrap := 8 } else cfg
    entries := []
    count := 0 }

/-- `(*registry).Register(t, name)` (registry.go, lines 62-100).  The
returned pair is (the Go error result, the registry after the call); all
error paths leave the registry unchanged. -/
def RegistryS.register (r : RegistryS) (t : Option GoType) (nm : String) :
    Except RegErr Unit × RegistryS :=
  match t with
  | none => (.error .nilTypeReg, r)
  | some t =>
    if nm = "" then (.error .emptyName, r)
    else
      match Normalize (some t) r.cfg with
      | .error e => (.error (.norm e), r)
      | .ok b =>
        match lookupEntry r.entries b with
        | some old => if old = nm then (.ok (), r) else (.error .conflict, r)
        | none =>
          (.ok (), { r with entries := (b, nm) :: r.entries, count := r.count + 1 })

/-- `(*registry).Lookup(t)` (registry.go, lines 103-115): a read-only
operation; normalization failure (including a nil descriptor) is reported
as not-found, never as an error. -/
def RegistryS.lookup (r : RegistryS) (t : Option GoType) : String × Bool :=
  match t with
  | none => ("", false)
  | some t =>
    match Normalize (some t) r.cfg with
    | .error _ => ("", false)
    | .ok nt =>
      match lookupEntry r.entries nt with
      | some v => (v, true)
      | none => ("", false)

/-- Go `int16(x)`: two's-complement truncation of an `int` to 16 bits. -/
def toInt16 (x : Int) : Int := (x + 32768) % 65536 - 32768

/-- `strategy.cacheKey` (reflect.go, lines 44-49).  The source stores the
MaxUnwrap knob as `int16(cfg.MaxUnwrap)`; the field here holds that
truncated value. -/
structure CacheKey where
  t : GoType
  includeBuiltin : Bool
  maxUnwrap : Int
  mapPreferElem : Bool
deriving DecidableEq

/-- The key construction inside `byType` (reflect.go, lines 72-77). -/
def mkKey (t : GoType) (cfg : Config) : CacheKey :=
  ⟨t, cfg.includeBuiltins, toInt16 cfg.maxUnwrap, cfg.mapPreferElem⟩

/-- The `typeNameCache` `sync.Map`, threaded explicitly. -/
abbrev Cache := List (CacheKey × String)

/-- `sync.Map.Load` on the name cache. -/
def lookupCache (c : Cache) (k : CacheKey) : Option String :=
  (c.find? (fun e => e.1 == k)).map (fun e => e.2)

/-- Go `path.Base` as used on package paths (reflect.go, line 90). -/
def pathBase (s : String) : String :=
  if s = "" then "."
  else
    let rs := s.toList.reverse.dropWhile (fun c => c = '/')
    let base := (rs.takeWhile (fun c => c ≠ '/')).reverse
    if base.isEmpty then "/" else String.mk base

/-- `strategy.stripTypeParams` (reflect.go, lines 101-106): cut at the
first opening square bracket. -/
def stripTypeParams (s : String) : String :=
  String.mk (s.toList.takeWhile (fun c => c ≠ '['))

/-- The cache-miss computation inside `byType` (reflect.go, lines 82-94):
normalize, then format `<package>.<TypeName>`, hiding builtin/no-package
names when `IncludeBuiltins` is false; any normalization failure yields
the empty string. -/
def directName (t : GoType) (cfg : Config) : String :=
  match Normalize (some t) cfg with
  | .error _ => ""
  | .ok base =>
    let nm := stripTypeParams base.name
    if base.pkgPath ≠ "" then pathBase base.pkgPath ++ "." ++ nm
    else if cfg.includeBuiltins then nm
    else ""

/-- `strategy.byType` (reflect.go, lines 71-98) with the process-global
cache threaded explicitly: returns the resolved name and the cache after
the call. -/
def byType (c : Cache) (t : GoType) (cfg : Config) : String × Cache :=
  let key := mkKey t cfg
  match lookupCache c key with
  | some v => (v, c)
  | none =>
    let nm := directName t cfg
    (nm, (key, nm) :: c)

/-- `reflectStrategy.TryResolve(v, cfg)` (reflect.go, lines 55-60).  A Go
`any` value is modelled by the type of the value (`none` is a nil value;
`reflect.TypeOf` of a non-nil value is its non-nil dynamic type). -/
def tryResolve (c : Cache) (v : Option GoType) (cfg : Config) :
    (String × Bool) × Cache :=
  match v with
  | none => (("", false), c)
  | some t => (((byType c t cfg).1, true), (byType c t cfg).2)

/-- `reflectStrategy.TryResolveType(t, cfg)` (reflect.go, lines 63-68). -/
def tryResolveType (c : Cache) (t : Option GoType) (cfg : Config) :
    (String × Bool) × Cache :=
  match t with
  | none => (("", false), c)
  | some t => (((byType c t cfg).1, true), (byType c t cfg).2)

/-- Registry objects as seen by the snapshot machine (`config.go` treats
`apis.Registry` as opaque): abstract object identities. -/
abbrev Reg := Nat

/-- Extension payloads as seen by the snapshot machine (opaque). -/
abbrev ExtP := Nat

/-- Resolver objects as seen by the snapshot machine.  A resolver is
either one constructed by a builder call — recording the config, registry
and extension it was built against, as `builder.BuildResolver` binds the
strategy chain to exactly these — or an object injected from outside. -/
inductive Res where
  | builtRes (cfg : Config) (reg : Option Reg) (ext : ExtP)
  | injRes (id : Nat)
deriving DecidableEq

/-- `apis.Builder`: `BuildRegistry(cfg, prev, ext)` and
`BuildResolver(cfg, reg, prev, ext)`; either may return nil (`none`). -/
structure BuilderM where
  buildRegistry : Config → Option Reg → ExtP → Option Reg
  buildResolver : Config → Option Reg → Option Res → ExtP → Option Res

/-- The default builder (`builder.New()`): always constructs fresh
non-nil layers; the resolver is bound to the given config, registry and
extension and ignores the previous resolver. -/
def defaultBuilder : BuilderM :=
  { buildRegistry := fun _ _ _ => some 0
    buildResolver := fun cfg reg _ ext => some (.builtRes cfg reg ext) }

/-- The published snapshot `state` (config.go, lines 555-570). -/
structure GState where
  cfg : Config
  ext : ExtP
  reg : Option Reg
  res : Option Res
  bld : BuilderM
  preg : Bool
  pres : Bool

/-- `ErrNilRegistry` / `ErrNilResolver`, raised by `panic` in the write
operations. -/
inductive NilErr where
  | nilRegistry
  | nilResolver
deriving DecidableEq

/-- The `panic`-before-`st.Store` tail shared by the rebuilding writes
(e.g. config.go, lines 250-269): check the registry, then the resolver,
then publish. -/
def publishChecked (s : GState) : Except NilErr GState :=
  if s.reg = none then .error .nilRegistry
  else if s.res = none then .error .nilResolver
  else .ok s

/-- The snapshot `SetConfig(cfg)` computes before its nil checks
(config.go, lines 240-268): rebuild registry unless pinned, rebuild
resolver (against the possibly-new registry) unless pinned, preserve the
extension, builder and pin flags. -/
def setConfigCand (c : Config) (s : GState) : GState :=
  let nreg := if s.preg then s.reg else s.bld.buildRegistry c s.reg s.ext
  let nres := if s.pres then s.res else s.bld.buildResolver c nreg s.res s.ext
  ⟨c, s.ext, nreg, nres, s.bld, s.preg, s.pres⟩

/-- `SetConfig(cfg)` (config.go, lines 232-270); `.error` models the
panic, which happens before `st.Store`. -/
def setConfigG (c : Config) (s : GState) : Except NilErr GState :=
  publishChecked (setConfigCand c s)

/-- The snapshot `SetExt(ext)` computes (config.go, lines 405-438): like
`SetConfig` but the config is preserved and the new extension is passed
to the builder and stored. -/
def setExtCand (e : ExtP) (s : GState) : GState :=
  let nreg := if s.preg then s.reg else s.bld.buildRegistry s.cfg s.reg e
  let nres := if s.pres then s.res else s.bld.buildResolver s.cfg nreg s.res e
  ⟨s.cfg, e, nreg, nres, s.bld, s.preg, s.pres⟩

/-- `SetExt(ext)` (config.go, lines 401-439). -/
def setExtG (e : ExtP) (s : GState) : Except NilErr GState :=
  publishChecked (setExtCand e s)

/-- The snapshot `SetBuilder(b)` computes for a non-nil `b` (config.go,
lines 365-397): rebuild unpinned layers with the new builder against the
old config/registry/resolver/extension. -/
def setBuilderCand (b : BuilderM) (s : GState) : GState :=
  let nreg := if s.preg then s.reg else b.buildRegistry s.cfg s.reg s.ext
  let nres := if s.pres then s.res else b.buildResolver s.cfg nreg s.res s.ext
  ⟨s.cfg, s.ext, nreg, nres, b, s.preg, s.pres⟩

/-- `SetBuilder(b)` (config.go, lines 357-398): a nil argument returns
without publishing. -/
def setBuilderG (b : Option BuilderM) (s : GState) : Except NilErr GState :=
  match b with
  | none => .ok s
  | some b => publishChecked (setBuilderCand b s)

/-- The snapshot `SetAll(cfg, ext, reg, res, bld)` computes (config.go,
lines 162-221): nil config/builder keep the old values, the extension is
always replaced, an omitted registry/resolver is rebuilt and the pin
flags are recomputed strictly from which layers were supplied. -/
def setAllCand (c : Option Config) (e : ExtP) (reg : Option Reg)
    (res : Option Res) (b : Option BuilderM) (s : GState) : GState :=
  let ncfg := c.getD s.cfg
  let nbld := b.getD s.bld
  let nreg := match reg with
    | some r => some r
    | none => nbld.buildRegistry ncfg s.reg e
  let nres := match res with
    | some r => some r
    | none => nbld.buildResolver ncfg nreg s.res e
  ⟨ncfg, e, nreg, nres, nbld, reg.isSome, res.isSome⟩

/-- `SetAll(cfg, ext, reg, res, bld)` (config.go, lines 162-222). -/
def setAllG (c : Option Config) (e : ExtP) (reg : Option Reg)
    (res : Option Res) (b : Option BuilderM) (s : GState) :
    Except NilErr GState :=
  publishChecked (setAllCand c e reg res b s)

/-- `SetRegistry(reg)` (config.go, lines 280-315): a nil argument returns
without publishing; otherwise the registry is set directly, marked
pinned, and the resolver is rebuilt against it unless resolver-pinned
(only the resolver is nil-checked, as in the source). -/
def setRegistryG (reg : Option Reg) (s : GState) : Except NilErr GState :=
  match reg with
  | none => .ok s
  | some r =>
    let nres := if s.pres then s.res else s.bld.buildResolver s.cfg (some r) s.res s.ext
    if nres = none then .error .nilResolver
    else .ok ⟨s.cfg, s.ext, some r, nres, s.bld, true, s.pres⟩

/-- `SetResolver(res)` (config.go, lines 325-348): a nil argument returns
without publishing; otherwise the resolver is set directly and marked
pinned; nothing else changes and no builder runs. -/
def setResolverG (res : Option Res) (s : GState) : Except NilErr GState :=
  match res with
  | none => .ok s
  | some r => .ok { s with res := some r, pres := true }

/-- `PinRegistry()` (config.go, lines 453-472). -/
def pinRegistryG (s : GState) : GState := { s with preg := true }

/-- `UnpinRegistry()` (config.go, lines 475-494). -/
def unpinRegistryG (s : GState) : GState := { s with preg := false }

/-- `PinResolver()` (config.go, lines 502-521). -/
def pinResolverG (s : GState) : GState := { s with pres := true }

/-- `UnpinResolver()` (config.go, lines 524-543): clears the flag only;
no rebuild happens. -/
def unpinResolverG (s : GState) : GState := { s with pres := false }

/-- The `init` function of package rfx (config.go, lines 115-124). -/
def initState : GState :=
  let cfg := defaultConfig
  let reg := defaultBuilder.buildRegistry cfg none 0
  let res := defaultBuilder.buildResolver cfg reg none 0
  ⟨cfg, 0, reg, res, defaultBuilder, false, false⟩

/-- The write operations of the global snapshot machine. -/
inductive GOp where
  | opSetConfig (c : Config)
  | opSetExt (e : ExtP)
  | opSetBuilder (b : Option BuilderM)
  | opSetRegistry (r : Option Reg)
  | opSetResolver (r : Option Res)
  | opSetAll (c : Option Config) (e : ExtP) (r : Option Reg) (res : Option Res) (b : Option BuilderM)
  | opPinRegistry
  | opUnpinRegistry
  | opPinResolver
  | opUnpinResolver

/-- Run one write operation; `.error` models a panic raised before the
snapshot swap. -/
def applyG : GOp → GState → Except NilErr GState
  | .opSetConfig c, s => setConfigG c s
  | .opSetExt e, s => setExtG e s
  | .opSetBuilder b, s => setBuilderG b s
  | .opSetRegistry r, s => setRegistryG r s
  | .opSetResolver r, s => setResolverG r s
  | .opSetAll c e r res b, s => setAllG c e r res b s
  | .opPinRegistry, s => .ok (pinRegistryG s)
  | .opUnpinRegistry, s => .ok (unpinRegistryG s)
  | .opPinResolver, s => .ok (pinResolverG s)
  | .opUnpinResolver, s => .ok (unpinResolverG s)

/-- The snapshot published after a write: a panicking write leaves the
previously published snapshot current. -/
def stepG (op : GOp) (s : GState) : GState :=
  match applyG op s with
  | .ok s2 => s2
  | .error _ => s

/-- The reachable states of the global machine: the `init` state and
everything writes lead to. -/
inductive ReachableG : GState → Prop where
  | init : ReachableG initState
  | step (op : GOp) {s : GState} : ReachableG s → ReachableG (stepG op s)

/-- The resolver half of the spec's snapshot-consistency invariant: if
the resolver is not pinned, it is exactly what the snapshot's builder
builds from the snapshot's config, registry and extension (for some
previous resolver). -/
def ResolverInv (s : GState) : Prop :=
  s.pres = false → ∃ prev, s.bld.buildResolver s.cfg s.reg prev s.ext = s.res

/-- The four rebuilding write operations of claim C8. -/
inductive RebuildOp where
  | rsetConfig (c : Config)
  | rsetBuilder (b : BuilderM)
  | rsetExt (e : ExtP)
  | rsetAll (c : Option Config) (e : ExtP) (r : Option Reg) (res : Option Res) (b : Option BuilderM)

/-- The candidate snapshot a rebuilding write computes before its nil
checks. -/
def candSnap : RebuildOp → GState → GState
  | .rsetConfig c, s => setConfigCand c s
  | .rsetBuilder b, s => setBuilderCand b s
  | .rsetExt e, s => setExtCand e s
  | .rsetAll c e r res b, s => setAllCand c e r res b s

/-- Run a rebuilding write. -/
def applyRebuild : RebuildOp → GState → Except NilErr GState
  | .rsetConfig c, s => setConfigG c s
  | .rsetBuilder b, s => setBuilderG (some b) s
  | .rsetExt e, s => setExtG e s
  | .rsetAll c e r res b, s => setAllG c e r res b s

/-- The snapshot current after a rebuilding write (panics publish
nothing). -/
def execRebuild (op : RebuildOp) (s : GState) : GState :=
  match applyRebuild op s with
  | .ok s2 => s2
  | .error _ => s

/-! ### Helper lemmas about the unwrap loop -/

/-- A named non-container type is returned unchanged at any remaining
budget. -/
theorem unwrapLoop_base (p n : String) (hn : n ≠ "") (pe : Bool) :
    ∀ fuel, unwrapLoop (.base p n) pe fuel = .ok (.base p n) := by
  intro fuel
  cases fuel with
  | zero => simp [unwrapLoop, GoType.name, hn]
  | succ k => simp [unwrapLoop, hn]

/-- One wrapping constructor consumes exactly one unit of budget. -/
theorem unwrapLoop_applyWrap (w : Wrap) (t : GoType) (pe : Bool) (fuel : Nat) :
    unwrapLoop (applyWrap w t) pe (fuel + 1) = unwrapLoop t pe fuel := by
  cases w <;> rfl

/-- A wrapping constructor is an unnamed composite type. -/
theorem applyWrap_name (w : Wrap) (t : GoType) : (applyWrap w t).name = "" := by
  cases w <;> rfl

/-- Enough budget: the loop reaches the wrapped named type and returns it. -/
theorem unwrapLoop_wrapAll_le (p n : String) (hn : n ≠ "") (pe : Bool) :
    ∀ (ws : List Wrap) (fuel : Nat), ws.length ≤ fuel →
      unwrapLoop (wrapAll ws (.base p n)) pe fuel = .ok (.base p n) := by
  intro ws
  induction ws with
  | nil => intro fuel _; exact unwrapLoop_base p n hn pe fuel
  | cons w ws ih =>
    intro fuel hle
    cases fuel with
    | zero => simp at hle
    | succ k =>
      have : wrapAll (w :: ws) (.base p n) = applyWrap w (wrapAll ws (.base p n)) := rfl
      rw [this, unwrapLoop_applyWrap]
      exact ih k (by simpa using hle)

/-- Budget exhausted strictly inside the wrappers: the loop ends on an
unnamed composite and fails. -/
theorem unwrapLoop_wrapAll_gt (p n : String) (pe : Bool) :
    ∀ (ws : List Wrap) (fuel : Nat), fuel < ws.length →
      unwrapLoop (wrapAll ws (.base p n)) pe fuel = .error .notNamed := by
  intro ws
  induction ws with
  | nil => intro fuel h; simp at h
  | cons w ws ih =>
    intro fuel hlt
    cases fuel with
    | zero =>
      have hname : (wrapAll (w :: ws) (.base p n)).name = "" := applyWrap_name w _
      simp [unwrapLoop, hname]
    | succ k =>
      have : wrapAll (w :: ws) (.base p n) = applyWrap w (wrapAll ws (.base p n)) := rfl
      rw [this, unwrapLoop_applyWrap]
      exact ih k (by simpa using hlt)

/-- The unwrap budget after clamping is always positive. -/
theorem clampUnwrap_pos (m : Int) : 0 < clampUnwrap m := by
  unfold clampUnwrap
  split <;> omega

/-- For a positive configured budget, the clamp is the identity. -/
theorem clampUnwrap_of_pos (m : Int) (h : 1 ≤ m) : clampUnwrap m = m.toNat := by
  unfold clampUnwrap
  split <;> omega

/-! ### The claims -/

/-- C2: for every named non-container type `T`, every config with
`maxUnwrap ≥ 1` and every sequence of pointer/slice/array/channel
wrappers of depth `d`: `Normalize` returns `T` when `d ≤ maxUnwrap` and
fails with the NotNamed error when `d > maxUnwrap`. -/
theorem c2_wrap_depth_normalize (p n : String) (hn : n ≠ "")
    (ws : List Wrap) (cfg : Config) (hmu : 1 ≤ cfg.maxUnwrap) :
    ((ws.length : Int) ≤ cfg.maxUnwrap →
      Normalize (some (wrapAll ws (.base p n))) cfg = .ok (.base p n)) ∧
    (cfg.maxUnwrap < (ws.length : Int) →
      Normalize (some (wrapAll ws (.base p n))) cfg = .error .notNamed) := by
  have hclamp : clampUnwrap cfg.maxUnwrap = cfg.maxUnwrap.toNat :=
    clampUnwrap_of_pos _ hmu
  constructor
  · intro hle
    have : ws.length ≤ clampUnwrap cfg.maxUnwrap := by rw [hclamp]; omega
    simpa [Normalize] using unwrapLoop_wrapAll_le p n hn cfg.mapPreferElem ws _ this
  · intro hgt
    have : clampUnwrap cfg.maxUnwrap < ws.length := by rw [hclamp]; omega
    simpa [Normalize] using unwrapLoop_wrapAll_gt p n cfg.mapPreferElem ws _ this

/-- Witness for C2 at a concrete instance: `**A` with budget 2 resolves
to `A`, and with budget 1 fails with NotNamed. -/
theorem c2_wrap_depth_normalize_witness :
    Normalize (some (wrapAll [.wptr, .wptr] (.base "p" "A"))) ⟨true, 2, true⟩ =
      .ok (.base "p" "A") ∧
    Normalize (some (wrapAll [.wptr, .wptr] (.base "p" "A"))) ⟨true, 1, true⟩ =
      .error .notNamed :=
  ⟨(c2_wrap_depth_normalize "p" "A" (by decide) [.wptr, .wptr] ⟨true, 2, true⟩
      (by decide)).1 (by decide),
   (c2_wrap_depth_normalize "p" "A" (by decide) [.wptr, .wptr] ⟨true, 1, true⟩
      (by decide)).2 (by decide)⟩

/-- C3: map handling of `Normalize` for `map[K]V`.  When both sides are
named the preference flag decides (element when `mapPreferElem`, key
otherwise); when the preferred side is unnamed and the other is named,
the named side wins regardless of the flag; when neither side is named,
one loop iteration continues with the element descriptor, never the
key. -/
theorem c3_map_preference (p n : String) (k v : GoType) (cfg : Config) :
    (k.name ≠ "" → v.name ≠ "" →
      Normalize (some (.mapT p n k v)) cfg =
        .ok (if cfg.mapPreferElem then v else k)) ∧
    (cfg.mapPreferElem = true → v.name = "" → k.name ≠ "" →
      Normalize (some (.mapT p n k v)) cfg = .ok k) ∧
    (cfg.mapPreferElem = false → k.name = "" → v.name ≠ "" →
      Normalize (some (.mapT p n k v)) cfg = .ok v) ∧
    (k.name = "" → v.name = "" → ∀ fuel : Nat,
      unwrapLoop (.mapT p n k v) cfg.mapPreferElem (fuel + 1) =
        unwrapLoop v cfg.mapPreferElem fuel) := by
  obtain ⟨m, hm⟩ :=
    Nat.exists_eq_succ_of_ne_zero (Nat.pos_iff_ne_zero.mp (clampUnwrap_pos cfg.maxUnwrap))
  refine ⟨?_, ?_, ?_, ?_⟩
  · intro hk hv
    cases hpe : cfg.mapPreferElem <;>
      simp [Normalize, hm, unwrapLoop, hk, hv, hpe]
  · intro hpe hv hk
    simp [Normalize, hm, unwrapLoop, hk, hv, hpe]
  · intro hpe hk hv
    simp [Normalize, hm, unwrapLoop, hk, hv, hpe]
  · intro hk hv fuel
    cases hpe : cfg.mapPreferElem <;> simp [unwrapLoop, hk, hv]

/-- Witness for C3 at a concrete instance: `map[string]A` prefers the
element under the default config. -/
theorem c3_map_preference_witness :
    Normalize (some (.mapT "" "" (.base "" "string") (.base "q" "A")))
        defaultConfig =
      .ok (if defaultConfig.mapPreferElem then .base "q" "A" else .base "" "string") :=
  (c3_map_preference "" "" (.base "" "string") (.base "q" "A") defaultConfig).1
    (by decide) (by decide)

/-- C4: `Register` is idempotent and conflict-atomic.  For a type whose
normalization under the registry's config succeeds with a normalized type
not yet bound, registering it under `x` succeeds and stores exactly one
entry; registering again under the same `x` succeeds without mutation;
registering under a different `y` returns the Conflict error and performs
no mutation — the stored name stays `x` and the count is unchanged. -/
theorem c4_register_idempotent_conflict (r : RegistryS) (t b : GoType)
    (x y : String)
    (hb : Normalize (some t) r.cfg = .ok b)
    (hfresh : lookupEntry r.entries b = none)
    (hx : x ≠ "") (hy : y ≠ "") (hxy : x ≠ y) :
    (r.register (some t) x).1 = .ok () ∧
    ((r.register (some t) x).2).register (some t) x =
      (.ok (), (r.register (some t) x).2) ∧
    ((r.register (some t) x).2).register (some t) y =
      (.error .conflict, (r.register (some t) x).2) ∧
    ((r.register (some t) x).2).count = r.count + 1 ∧
    lookupEntry ((r.register (some t) x).2).entries b = some x := by
  have h1 : r.register (some t) x =
      (.ok (), { r with entries := (b, x) :: r.entries, count := r.count + 1 }) := by
    simp [RegistryS.register, hx, hb, hfresh]
  have hhead : lookupEntry ((b, x) :: r.entries) b = some x := by
    simp [lookupEntry]
  refine ⟨by rw [h1], ?_, ?_, by rw [h1], by rw [h1]; exact hhead⟩
  · rw [h1]
    simp [RegistryS.register, hx, hb, hhead]
  · rw [h1]
    simp [RegistryS.register, hy, hb, hhead, hxy]

/-- Witness for C4 on a fresh default registry and the named type
`p.A`. -/
theorem c4_register_idempotent_conflict_witness :
    ((newRegistry defaultConfig).register (some (.base "p" "A")) "x").1 = .ok () ∧
    (((newRegistry defaultConfig).register (some (.base "p" "A")) "x").2).register
        (some (.base "p" "A")) "x" =
      (.ok (), ((newRegistry defaultConfig).register (some (.base "p" "A")) "x").2) ∧
    (((newRegistry defaultConfig).register (some (.base "p" "A")) "x").2).register
        (some (.base "p" "A")) "y" =
      (.error .conflict, ((newRegistry defaultConfig).register (some (.base "p" "A")) "x").2) ∧
    (((newRegistry defaultConfig).register (some (.base "p" "A")) "x").2).count =
      (newRegistry defaultConfig).count + 1 ∧
    lookupEntry (((newRegistry defaultConfig).register (some (.base "p" "A")) "x").2).entries
        (.base "p" "A") =
      some "x" :=
  c4_register_idempotent_conflict (newRegistry defaultConfig) (.base "p" "A")
    (.base "p" "A") "x" "y" rfl rfl (by decide) (by decide) (by decide)

/-- C9: `Lookup` never propagates normalization errors.  Whenever
normalization of the (possibly nil) descriptor under the registry's
config fails — nil descriptor, anonymous type, or exhausted unwrap
budget — `Lookup` returns the not-found pair `("", false)`.  `Lookup` is
read-only in the source (it only loads from the map), so the registry is
unchanged; the model renders it as a pure function. -/
theorem c9_lookup_never_propagates (r : RegistryS) (t : Option GoType)
    (e : NormErr) (he : Normalize t r.cfg = .error e) :
    r.lookup t = ("", false) := by
  cases t with
  | none => rfl
  | some t0 => simp [RegistryS.lookup, he]

/-- Witness for C9: looking up an anonymous struct type on a fresh
default registry reports not-found. -/
theorem c9_lookup_never_propagates_witness :
    (newRegistry defaultConfig).lookup (some (.base "" "")) = ("", false) :=
  c9_lookup_never_propagates (newRegistry defaultConfig) (some (.base "" ""))
    .notNamed rfl

/-- C5: evaluation of the memoization bug in `cacheKey`.  The source
stores the MaxUnwrap knob as `int16(cfg.MaxUnwrap)`, so the configs with
`maxUnwrap = 1` and `maxUnwrap = 65537` (which differ, and normalize
`**A` differently) produce the *same* cache key; after a call under the
first config, a call under the second returns the stale cached `""`
although the direct computation under that config yields `"pkg.A"`.  This
contradicts the `cacheKey` doc comment ("ensures memoization respects all
config knobs that affect resolution") and the spec's composite-key
description. -/
theorem c5_cache_key_truncation_eval :
    mkKey (.ptr "" "" (.ptr "" "" (.base "pkg" "A"))) ⟨true, 1, true⟩ =
      mkKey (.ptr "" "" (.ptr "" "" (.base "pkg" "A"))) ⟨true, 65537, true⟩ ∧
    (⟨true, 1, true⟩ : Config).maxUnwrap ≠ (⟨true, 65537, true⟩ : Config).maxUnwrap ∧
    directName (.ptr "" "" (.ptr "" "" (.base "pkg" "A"))) ⟨true, 1, true⟩ = "" ∧
    directName (.ptr "" "" (.ptr "" "" (.base "pkg" "A"))) ⟨true, 65537, true⟩ =
      "pkg.A" ∧
    (byType (byType [] (.ptr "" "" (.ptr "" "" (.base "pkg" "A"))) ⟨true, 1, true⟩).2
        (.ptr "" "" (.ptr "" "" (.base "pkg" "A"))) ⟨true, 65537, true⟩).1 = "" := by
  refine ⟨by decide, by decide, by decide, ?_, ?_⟩ <;> decide

/-- C6 counterexample: the reflective-fallback strategy does *not*
handle nil inputs — `TryResolve(nil, cfg)` and `TryResolveType(nil, cfg)`
both return `handled = false`, contradicting the claim's "no carve-out
for nil inputs". -/
theorem c6_nil_input_declines :
    (tryResolve [] none defaultConfig).1 = ("", false) ∧
    (tryResolveType [] none defaultConfig).1 = ("", false) :=
  ⟨rfl, rfl⟩

/-- C6 as amended: for every *non-nil* value and every non-nil type
descriptor, under every config and cache state, the reflective-fallback
strategy returns `handled = true` (yielding a name that may be the empty
string); nil inputs are the one carve-out and return
`("", handled = false)`. -/
theorem c6_nonnil_always_handles (c : Cache) (t : GoType) (cfg : Config) :
    (tryResolve c (some t) cfg).1.2 = true ∧
    (tryResolveType c (some t) cfg).1.2 = true ∧
    (tryResolve c none cfg).1 = ("", false) ∧
    (tryResolveType c none cfg).1 = ("", false) :=
  ⟨rfl, rfl, rfl, rfl⟩

/-! ### Helper lemmas about the publish step -/

/-- A successful publish returns the candidate snapshot, whose layers
passed both nil checks. -/
theorem publishChecked_ok (s s2 : GState) (h : publishChecked s = .ok s2) :
    s2 = s ∧ s.reg ≠ none ∧ s.res ≠ none := by
  unfold publishChecked at h
  by_cases h1 : s.reg = none
  · simp [h1] at h
  · by_cases h2 : s.res = none
    · simp [h1, h2] at h
    · simp [h1, h2] at h
      exact ⟨h.symm, h1, h2⟩

/-- A candidate snapshot with a nil layer is never published: the write
raises one of the nil-layer panics. -/
theorem publishChecked_error (s : GState) (h : s.reg = none ∨ s.res = none) :
    ∃ e, publishChecked s = .error e := by
  unfold publishChecked
  by_cases hr : s.reg = none
  · exact ⟨.nilRegistry, by simp [hr]⟩
  · rcases h with h | h
    · exact absurd h hr
    · exact ⟨.nilResolver, by simp [hr, h]⟩

/-- Each rebuilding write is exactly the checked publication of its
candidate snapshot. -/
theorem applyRebuild_eq_publish (op : RebuildOp) (s : GState) :
    applyRebuild op s = publishChecked (candSnap op s) := by
  cases op <;> rfl

/-- C8: nil-layer atomicity.  For each of the four rebuilding writes
(`SetConfig`, `SetBuilder`, `SetExt`, `SetAll`) and *every* state (so in
particular every reachable one): a raised nil-layer panic leaves the
previously published snapshot current; any snapshot the write does
publish is its candidate snapshot and has non-nil registry and resolver;
and whenever the candidate's registry or resolver is nil (i.e. the
builder returned nil for a layer the write was building), the write
raises instead of publishing. -/
theorem c8_nil_layer_atomicity (op : RebuildOp) (s : GState) :
    (∀ e, applyRebuild op s = .error e → execRebuild op s = s) ∧
    (∀ s2, applyRebuild op s = .ok s2 →
      s2 = candSnap op s ∧ s2.reg ≠ none ∧ s2.res ≠ none) ∧
    ((candSnap op s).reg = none ∨ (candSnap op s).res = none →
      ∃ e, applyRebuild op s = .error e) := by
  refine ⟨?_, ?_, ?_⟩
  · intro e he
    unfold execRebuild
    rw [he]
  · intro s2 h2
    rw [applyRebuild_eq_publish] at h2
    obtain ⟨heq, hr, hs⟩ := publishChecked_ok _ _ h2
    subst heq
    exact ⟨rfl, hr, hs⟩
  · intro h
    rw [applyRebuild_eq_publish]
    exact publishChecked_error _ h

/-- Witness for C8: with a builder that returns nil, `SetConfig` panics
and the previous snapshot stays current. -/
theorem c8_nil_layer_atomicity_witness :
    execRebuild (.rsetConfig defaultConfig)
        ⟨defaultConfig, 0, some 0, some (.injRes 0),
          ⟨fun _ _ _ => none, fun _ _ _ _ => none⟩, false, false⟩ =
      ⟨defaultConfig, 0, some 0, some (.injRes 0),
        ⟨fun _ _ _ => none, fun _ _ _ _ => none⟩, false, false⟩ :=
  (c8_nil_layer_atomicity (.rsetConfig defaultConfig)
      ⟨defaultConfig, 0, some 0, some (.injRes 0),
        ⟨fun _ _ _ => none, fun _ _ _ _ => none⟩, false, false⟩).1
    .nilRegistry rfl

/-- C10: injecting nil is a no-op.  `SetRegistry(nil)`, `SetResolver(nil)`
and `SetBuilder(nil)` return without publishing: the current snapshot —
config, extension, registry, resolver, builder and both pin flags — is
left exactly as it was, and in particular no layer becomes pinned. -/
theorem c10_nil_injection_noop (s : GState) :
    setRegistryG none s = .ok s ∧ setResolverG none s = .ok s ∧
    setBuilderG none s = .ok s :=
  ⟨rfl, rfl, rfl⟩

/-- The snapshot published by a successful `SetRegistry` with a non-nil
argument: the injected registry, pinned, with the resolver rebuilt
against it unless resolver-pinned. -/
theorem setRegistryG_ok (R : Reg) (s s1 : GState)
    (h : setRegistryG (some R) s = .ok s1) :
    s1 = ⟨s.cfg, s.ext, some R,
          if s.pres then s.res else s.bld.buildResolver s.cfg (some R) s.res s.ext,
          s.bld, true, s.pres⟩ := by
  unfold setRegistryG at h
  by_cases hn : (if s.pres then s.res
      else s.bld.buildResolver s.cfg (some R) s.res s.ext) = none
  · simp [hn] at h
  · simp [hn] at h
    exact h.symm

/-- C7: pinning frame property.  From any reachable state, after
`SetRegistry(R)` publishes `s1` and a subsequent `SetConfig(c)` publishes
`s2`: the registry of `s2` is still exactly `R` (and stays pinned), the
config is the new one, extension and builder are unchanged, the
resolver-pin flag is preserved, and the resolver of `s2` is the builder's
output bound to `R` and the new config (with `s1`'s resolver as the
previous one) unless the resolver was pinned, in which case it is `s`'s
resolver unchanged. -/
theorem c7_pin_frame (s s1 s2 : GState) (R : Reg) (c : Config)
    (_hreach : ReachableG s)
    (h1 : setRegistryG (some R) s = .ok s1)
    (h2 : setConfigG c s1 = .ok s2) :
    s2.reg = some R ∧ s2.preg = true ∧ s2.pres = s.pres ∧ s2.bld = s.bld ∧
    s2.cfg = c ∧ s2.ext = s.ext ∧
    (s.pres = false →
      s2.res = s.bld.buildResolver c (some R) s1.res s.ext) ∧
    (s.pres = true → s2.res = s.res) := by
  have hs1 := setRegistryG_ok R s s1 h1
  obtain ⟨hs2, -, -⟩ := publishChecked_ok _ _ h2
  subst hs1
  subst hs2
  cases hp : s.pres <;>
    simp [setConfigCand, hp]

/-- Witness for C7 at a concrete instance: inject registry 5 into the
initial state, then reconfigure. -/
theorem c7_pin_frame_witness :
    (⟨⟨false, 3, false⟩, 0, some 5,
        some (.builtRes ⟨false, 3, false⟩ (some 5) 0),
        defaultBuilder, true, false⟩ : GState).reg = some 5 ∧
    (⟨⟨false, 3, false⟩, 0, some 5,
        some (.builtRes ⟨false, 3, false⟩ (some 5) 0),
        defaultBuilder, true, false⟩ : GState).res =
      defaultBuilder.buildResolver ⟨false, 3, false⟩ (some 5)
        (some (.builtRes defaultConfig (some 5) 0)) 0 := by
  have h := c7_pin_frame initState
    ⟨defaultConfig, 0, some 5, some (.builtRes defaultConfig (some 5) 0),
      defaultBuilder, true, false⟩
    ⟨⟨false, 3, false⟩, 0, some 5, some (.builtRes ⟨false, 3, false⟩ (some 5) 0),
      defaultBuilder, true, false⟩
    5 ⟨false, 3, false⟩ .init rfl rfl
  exact ⟨h.1, h.2.2.2.2.2.2.1 rfl⟩

/-- C1 counterexample: the claim fails on the code.  The initial state is
reachable, and executing `SetResolver(r)` (injecting a resolver that is
not a builder product) followed by `UnpinResolver()` publishes a snapshot
that violates the invariant: the resolver-pinned flag is false, yet the
held resolver is the injected one, not anything the snapshot's builder
builds from its registry and config — `UnpinResolver` only clears the
flag and performs no rebuild. -/
theorem c1_unpin_breaks_invariant :
    ReachableG initState ∧
    ¬ ResolverInv
        (stepG .opUnpinResolver
          (stepG (.opSetResolver (some (.injRes 1))) initState)) := by
  refine ⟨.init, fun h => ?_⟩
  obtain ⟨prev, hp⟩ := h rfl
  exact Res.noConfusion (Option.some.inj hp)

/-- C1 as amended: `SetResolver(r)` alone preserves the invariant
(it pins, making it vacuous), but after the subsequent `UnpinResolver()`
the invariant may fail and is only restored lazily: the next successful
rebuilding write re-establishes it.  Concretely, for every state `s`,
every injected resolver `r` and every config `c`, if
`SetResolver(r); UnpinResolver(); SetConfig(c)` ends in a published
snapshot `s2`, then `s2` satisfies the invariant. -/
theorem c1_rebuild_restores_invariant (s s1 s2 : GState) (r : Res) (c : Config)
    (h1 : setResolverG (some r) s = .ok s1)
    (h2 : setConfigG c (unpinResolverG s1) = .ok s2) :
    ResolverInv s2 := by
  injection h1 with h1
  subst h1
  obtain ⟨hs2, -, -⟩ := publishChecked_ok _ _ h2
  subst hs2
  intro hp
  exact ⟨_, rfl⟩

/-- Witness for the amended C1: inject resolver `injRes 1` into the
initial state, unpin, then reconfigure; the published snapshot satisfies
the invariant. -/
theorem c1_rebuild_restores_invariant_witness :
    ResolverInv
      (⟨defaultConfig, 0, some 0, some (.builtRes defaultConfig (some 0) 0),
        defaultBuilder, false, false⟩ : GState) :=
  c1_rebuild_restores_invariant initState
    ⟨defaultConfig, 0, some 0, some (.injRes 1), defaultBuilder, false, true⟩
    ⟨defaultConfig, 0, some 0, some (.builtRes defaultConfig (some 0) 0),
      defaultBuilder, false, false⟩
    (.injRes 1) defaultConfig rfl rfl
